import Mathlib

/-!
Shallow embedding of the transfer-request matching engine of the
suhadamaaru backend (src/src/matches/matching-algorithm.service.ts and
the MatchesService accept/reject handlers), with theorems checking the
natural-language specification against it.

Conventions of the embedding:
* JavaScript numbers carrying scores are modelled as `Int` wherever the
  source can produce a negative intermediate value (rank bonuses), and
  as `Nat` where the source values are manifestly non-negative.
* `Math.round` on a non-negative quotient `a / b` is modelled by
  `natRoundDiv a b = (2*a + b) / (2*b)` (round half away from zero,
  which is what `Math.round` does for positive arguments).
* A JavaScript truthiness test `!x` on an optional numeric id is
  modelled by `falsyOpt` (absent or zero).
* Supabase calls are modelled by explicit state passing: query results
  are fields of a database record, and insert failures are injected
  through an environment of failure oracles, mirroring the error
  branches the source checks.
-/

inductive GeoFlexibility
  | district_only
  | province_wide
  | nationwide
deriving DecidableEq, Repr

inductive UrgencyLevel
  | normal
  | high
deriving DecidableEq, Repr

/-- One row of a request's ranked destination list
(`preferred_schools` entries of the `TransferRequest` interface). -/
structure PreferredSchool where
  preferred_school_id : Nat
  preference_rank : Nat
deriving DecidableEq, Repr

structure Province where
  id : Nat
deriving DecidableEq, Repr

structure District where
  id : Nat
  province : Option Province
deriving DecidableEq, Repr

structure Zone where
  district : Option District
deriving DecidableEq, Repr

structure Division where
  zone : Option Zone
deriving DecidableEq, Repr

structure School where
  division : Option Division
deriving DecidableEq, Repr

/-- The enriched `TransferRequest` interface of
matching-algorithm.service.ts. -/
structure TransferRequest where
  id : String
  user_id : String
  current_school_id : Nat
  appointment_category_id : Nat
  medium_of_instruction : String
  geographic_flexibility : GeoFlexibility
  urgency_level : UrgencyLevel
  status : String
  preferred_schools : List PreferredSchool
  subjects : List Nat
  current_school : Option School
deriving DecidableEq, Repr

/-- `Math.round (a / b)` for non-negative integers: round half away
from zero. Returns 0 when `b = 0` (the source never divides by zero on
the paths we model; the guards are kept). -/
def natRoundDiv (a b : Nat) : Nat := (2 * a + b) / (2 * b)

/-- JavaScript falsiness of an optional numeric id: `!x` is true when
the value is `undefined` or `0`. -/
def falsyOpt (o : Option Nat) : Bool :=
  match o with
  | none => true
  | some n => n == 0

/-- `request.current_school?.division?.zone?.district` optional chain. -/
def districtOf (r : TransferRequest) : Option District :=
  ((r.current_school.bind School.division).bind Division.zone).bind Zone.district

/-- `request.current_school?.division?.zone?.district?.id`. -/
def districtId (r : TransferRequest) : Option Nat :=
  (districtOf r).map District.id

/-- `request.current_school?.division?.zone?.district?.province?.id`. -/
def provinceId (r : TransferRequest) : Option Nat :=
  ((districtOf r).bind District.province).map Province.id

/-- `hasCommonSubjects` from matching-algorithm.service.ts: both
subject lists non-empty and sharing at least one member. -/
def hasCommonSubjects (request1 request2 : TransferRequest) : Bool :=
  if request1.subjects.length == 0 || request2.subjects.length == 0 then
    false
  else
    request1.subjects.any (fun s => request2.subjects.contains s)

/-- `prefs.find(ps => ps.preferred_school_id === sid)?.preference_rank`. -/
def findRank (prefs : List PreferredSchool) (sid : Nat) : Option Nat :=
  (prefs.find? (fun ps => ps.preferred_school_id == sid)).map PreferredSchool.preference_rank

/-- `x || 5` applied to an optional rank: absent or `0` becomes `5`
(JavaScript `||` treats `0` as absent). -/
def rankOr5 (o : Option Nat) : Nat :=
  match o with
  | none => 5
  | some r => if r == 0 then 5 else r

/-- `x.preferred_schools.some(ps => ps.preferred_school_id === y.current_school_id)`:
request `x` lists `y`'s current school among its preferred destinations. -/
def wantsSchoolOf (x y : TransferRequest) : Bool :=
  x.preferred_schools.any (fun ps => ps.preferred_school_id == y.current_school_id)

/-- `calculateGeographicCompatibility` (pairwise rule table): both
sides' flexibility tags are consulted, and the same-province branch
with insufficient flexibility still yields 5. -/
def calculateGeographicCompatibility (request1 request2 : TransferRequest) : Nat :=
  let r1DistrictId := districtId request1
  let r1ProvinceId := provinceId request1
  let r2DistrictId := districtId request2
  let r2ProvinceId := provinceId request2
  if falsyOpt r1DistrictId || falsyOpt r2DistrictId then 0
  else
    let sameDistrict := r1DistrictId == r2DistrictId
    let sameProvince := r1ProvinceId == r2ProvinceId
    let r1Flexibility := request1.geographic_flexibility
    let r2Flexibility := request2.geographic_flexibility
    if sameDistrict then 20
    else if sameProvince then
      if (r1Flexibility == .province_wide || r1Flexibility == .nationwide)
          && (r2Flexibility == .province_wide || r2Flexibility == .nationwide) then 15
      else 5
    else if r1Flexibility == .nationwide && r2Flexibility == .nationwide then 10
    else 0

/-- `getGeoFeasibilityScore` (the rule table used by the three-way
scorer): only `from`'s flexibility tag is consulted and there is no
5-point branch. -/
def getGeoFeasibilityScore (frm tgt : TransferRequest) : Nat :=
  let fromDistrict := districtId frm
  let toDistrict := districtId tgt
  let fromProvince := provinceId frm
  let toProvince := provinceId tgt
  if falsyOpt fromDistrict || falsyOpt toDistrict then 0
  else
    let sameDistrict := fromDistrict == toDistrict
    let sameProvince := fromProvince == toProvince
    let flexibility := frm.geographic_flexibility
    if sameDistrict then 20
    else if sameProvince && (flexibility == .province_wide || flexibility == .nationwide) then 15
    else if flexibility == .nationwide then 10
    else 0

/-- The `{total, breakdown}` record returned by `calculateCompatibility`. -/
structure CompatibilityScore where
  total : Int
  mutualSchools : Int
  geographicCompatibility : Int
  subjects : Int
  urgency : Int
deriving DecidableEq, Repr

/-- `calculateCompatibility` from matching-algorithm.service.ts. -/
def calculateCompatibility (request1 request2 : TransferRequest) : CompatibilityScore :=
  let r1CurrentInR2Prefs := wantsSchoolOf request2 request1
  let r2CurrentInR1Prefs := wantsSchoolOf request1 request2
  let mutualSchools : Int :=
    if r1CurrentInR2Prefs && r2CurrentInR1Prefs then
      let r1Rank := rankOr5 (findRank request2.preferred_schools request1.current_school_id)
      let r2Rank := rankOr5 (findRank request1.preferred_schools request2.current_school_id)
      let rankBonus : Int := ((6 - (r1Rank : Int)) + (6 - (r2Rank : Int))) * 2
      min (40 + rankBonus) 60
    else 0
  let geographicCompatibility : Int := (calculateGeographicCompatibility request1 request2 : Nat)
  let subjects : Int :=
    if request1.subjects.length == 0 || request2.subjects.length == 0 then 0
    else
      let commonSubjects := request1.subjects.filter (fun s => request2.subjects.contains s)
      (natRoundDiv (15 * commonSubjects.length)
        (max request1.subjects.length request2.subjects.length) : Nat)
  let urgency : Int :=
    if request1.urgency_level == request2.urgency_level then 5
    else if request1.urgency_level == .high || request2.urgency_level == .high then 2
    else 0
  let total := mutualSchools + geographicCompatibility + subjects + urgency
  { total := min total 100
    mutualSchools := mutualSchools
    geographicCompatibility := geographicCompatibility
    subjects := subjects
    urgency := urgency }

/-- The geographic component of the three-way score: rounded average of
the three directed `getGeoFeasibilityScore` values along the cycle. -/
def threeWayGeoComponent (reqA reqB reqC : TransferRequest) : Nat :=
  natRoundDiv
    (getGeoFeasibilityScore reqA reqB + getGeoFeasibilityScore reqB reqC
      + getGeoFeasibilityScore reqC reqA) 3

/-- `calculateThreeWayCompatibility` from matching-algorithm.service.ts. -/
def calculateThreeWayCompatibility (reqA reqB reqC : TransferRequest) : Int :=
  let aRankForB := rankOr5 (findRank reqA.preferred_schools reqB.current_school_id)
  let bRankForC := rankOr5 (findRank reqB.preferred_schools reqC.current_school_id)
  let cRankForA := rankOr5 (findRank reqC.preferred_schools reqA.current_school_id)
  let preferenceScore : Int :=
    (6 - (aRankForB : Int)) * 2 + (6 - (bRankForC : Int)) * 2 + (6 - (cRankForA : Int)) * 2
  let abSubjects := (reqA.subjects.filter (fun s => reqB.subjects.contains s)).length
  let bcSubjects := (reqB.subjects.filter (fun s => reqC.subjects.contains s)).length
  let caSubjects := (reqC.subjects.filter (fun s => reqA.subjects.contains s)).length
  let subjectScore : Int := (min (natRoundDiv (10 * (abSubjects + bcSubjects + caSubjects)) 3) 30 : Nat)
  let aGeoScore := getGeoFeasibilityScore reqA reqB
  let bGeoScore := getGeoFeasibilityScore reqB reqC
  let cGeoScore := getGeoFeasibilityScore reqC reqA
  let geoScore : Int := (natRoundDiv (aGeoScore + bGeoScore + cGeoScore) 3 : Nat)
  let allHigh := reqA.urgency_level == .high && reqB.urgency_level == .high
    && reqC.urgency_level == .high
  let allNormal := reqA.urgency_level == .normal && reqB.urgency_level == .normal
    && reqC.urgency_level == .normal
  let urgencyScore : Int := if allHigh || allNormal then 10 else 5
  min (min preferenceScore 40 + subjectScore + geoScore + urgencyScore) 100

inductive MatchType
  | two_way
  | circular_three
deriving DecidableEq, Repr

inductive MatchStatus
  | pending
  | accepted
  | rejected
  | expired
deriving DecidableEq, Repr

inductive ResponseStatus
  | pending
  | accepted
  | rejected
deriving DecidableEq, Repr

/-- A row of the `transfer_matches` table. -/
structure MatchRow where
  id : Nat
  match_type : MatchType
  compatibility_score : Int
  status : MatchStatus
  expires_at : Nat
deriving DecidableEq, Repr

/-- A row of the `transfer_match_participants` table. -/
structure ParticipantRow where
  match_id : Nat
  transfer_request_id : String
  user_id : String
  swap_position : Nat
  response_status : ResponseStatus
  responded_at : Option Nat
deriving DecidableEq, Repr

/-- The persistence state seen by the match factory: the two tables the
factory writes, plus the id the next inserted match row receives. -/
structure MatchDb where
  transfer_matches : List MatchRow
  participants : List ParticipantRow
  nextId : Nat
deriving Repr

/-- Collaborator failure oracles: whether the `transfer_matches` insert
or the `transfer_match_participants` insert fails for a given fresh
match id, plus the current time used for the 7-day expiry stamp. -/
structure MatchEnv where
  now : Nat
  matchInsertFail : Nat → Bool
  partInsertFail : Nat → Bool

def emptyMatchDb : MatchDb := { transfer_matches := [], participants := [], nextId := 0 }

/-- An environment in which every insert succeeds. -/
def envAllOk : MatchEnv :=
  { now := 0, matchInsertFail := fun _ => false, partInsertFail := fun _ => false }

/-- An environment in which every participant insert fails (the match
row insert itself succeeds). -/
def envPartFail : MatchEnv :=
  { now := 0, matchInsertFail := fun _ => false, partInsertFail := fun _ => true }

/-- `createTwoWayMatch`: validates category, medium and common
subjects, inserts the match row, then the two participant rows; on
participant-insert failure deletes the match row again (compensating
rollback) and reports `none`. -/
def createTwoWayMatch (env : MatchEnv) (db : MatchDb)
    (request1 request2 : TransferRequest) (compatibility : CompatibilityScore) :
    MatchDb × Option Nat :=
  if request1.appointment_category_id ≠ request2.appointment_category_id then (db, none)
  else if request1.medium_of_instruction ≠ request2.medium_of_instruction then (db, none)
  else if hasCommonSubjects request1 request2 = false then (db, none)
  else
    let mid := db.nextId
    if env.matchInsertFail mid then (db, none)
    else
      let row : MatchRow :=
        { id := mid, match_type := .two_way, compatibility_score := compatibility.total,
          status := .pending, expires_at := env.now + 7 }
      let db1 : MatchDb :=
        { db with transfer_matches := db.transfer_matches ++ [row], nextId := mid + 1 }
      if env.partInsertFail mid then
        ({ db1 with transfer_matches := db1.transfer_matches.filter (fun m => m.id != mid) }, none)
      else
        let ps : List ParticipantRow :=
          [ { match_id := mid, transfer_request_id := request1.id, user_id := request1.user_id,
              swap_position := 1, response_status := .pending, responded_at := none },
            { match_id := mid, transfer_request_id := request2.id, user_id := request2.user_id,
              swap_position := 2, response_status := .pending, responded_at := none } ]
        ({ db1 with participants := db1.participants ++ ps }, some mid)

/-- `createThreeWayMatch`: no validation of its own (the caller gates),
inserts the match row then three participant rows with swap positions
1..3; on participant-insert failure deletes the match row again. -/
def createThreeWayMatch (env : MatchEnv) (db : MatchDb)
    (reqA reqB reqC : TransferRequest) (compatibilityScore : Int) :
    MatchDb × Option Nat :=
  let mid := db.nextId
  if env.matchInsertFail mid then (db, none)
  else
    let row : MatchRow :=
      { id := mid, match_type := .circular_three, compatibility_score := compatibilityScore,
        status := .pending, expires_at := env.now + 7 }
    let db1 : MatchDb :=
      { db with transfer_matches := db.transfer_matches ++ [row], nextId := mid + 1 }
    if env.partInsertFail mid then
      ({ db1 with transfer_matches := db1.transfer_matches.filter (fun m => m.id != mid) }, none)
    else
      let ps : List ParticipantRow :=
        [ { match_id := mid, transfer_request_id := reqA.id, user_id := reqA.user_id,
            swap_position := 1, response_status := .pending, responded_at := none },
          { match_id := mid, transfer_request_id := reqB.id, user_id := reqB.user_id,
            swap_position := 2, response_status := .pending, responded_at := none },
          { match_id := mid, transfer_request_id := reqC.id, user_id := reqC.user_id,
            swap_position := 3, response_status := .pending, responded_at := none } ]
      ({ db1 with participants := db1.participants ++ ps }, some mid)

/-- Allocator state threaded through `runMatchingAlgorithm`: the
persistence state, the `processedRequestIds` set (as a duplicate-free
list), the `matchesCreated` counter, and (as observable output) the
list of allocated groups in allocation order. -/
structure AllocState where
  db : MatchDb
  processed : List String
  count : Nat
  groups : List (List TransferRequest)
deriving Repr

/-- `Set.add` on the processed-id set. -/
def addId (l : List String) (i : String) : List String :=
  if l.contains i then l else l ++ [i]

/-- The body of the innermost loop of `findThreeWayMatches`, for the
triple `(reqA, reqB, reqC)` drawn at indices `i < j < k`: the same-user
guard, the single directed-cycle test A→B→C→A, the category/medium
gate, the three pairwise subject gates, the `>= 40` threshold, and the
allocation on successful creation. -/
def threeWayBody (env : MatchEnv) (reqA reqB reqC : TransferRequest)
    (st : AllocState) : AllocState :=
  if reqA.user_id == reqB.user_id || reqB.user_id == reqC.user_id
      || reqA.user_id == reqC.user_id then st
  else if wantsSchoolOf reqA reqB && wantsSchoolOf reqB reqC && wantsSchoolOf reqC reqA then
    if !(reqA.appointment_category_id == reqB.appointment_category_id
          && reqB.appointment_category_id == reqC.appointment_category_id)
        || !(reqA.medium_of_instruction == reqB.medium_of_instruction
          && reqB.medium_of_instruction == reqC.medium_of_instruction) then st
    else if !hasCommonSubjects reqA reqB || !hasCommonSubjects reqB reqC
        || !hasCommonSubjects reqC reqA then st
    else
      if 40 ≤ calculateThreeWayCompatibility reqA reqB reqC then
        match createThreeWayMatch env st.db reqA reqB reqC
            (calculateThreeWayCompatibility reqA reqB reqC) with
        | (db1, some _) =>
          { db := db1
            processed := addId (addId (addId st.processed reqA.id) reqB.id) reqC.id
            count := st.count + 1
            groups := st.groups ++ [[reqA, reqB, reqC]] }
        | (db1, none) => { st with db := db1 }
      else st
  else st

/-- Innermost (`k`) loop of `findThreeWayMatches`: note that after an
allocation it continues scanning with the same `reqA`, `reqB` and only
re-checks the `k` element against the processed set, exactly as the
source does. -/
def threeWayLoopK (env : MatchEnv) (reqA reqB : TransferRequest) :
    List TransferRequest → AllocState → AllocState
  | [], st => st
  | reqC :: rest, st =>
    if st.processed.contains reqC.id then threeWayLoopK env reqA reqB rest st
    else threeWayLoopK env reqA reqB rest (threeWayBody env reqA reqB reqC st)

/-- Middle (`j`) loop of `findThreeWayMatches`. -/
def threeWayLoopJ (env : MatchEnv) (reqA : TransferRequest) :
    List TransferRequest → AllocState → AllocState
  | [], st => st
  | reqB :: rest, st =>
    if st.processed.contains reqB.id then threeWayLoopJ env reqA rest st
    else threeWayLoopJ env reqA rest (threeWayLoopK env reqA reqB rest st)

/-- Outer (`i`) loop of `findThreeWayMatches`. -/
def threeWayLoopI (env : MatchEnv) :
    List TransferRequest → AllocState → AllocState
  | [], st => st
  | reqA :: rest, st =>
    if st.processed.contains reqA.id then threeWayLoopI env rest st
    else threeWayLoopI env rest (threeWayLoopJ env reqA rest st)

/-- `findThreeWayMatches` over the eligible pool. -/
def findThreeWayMatches (env : MatchEnv) (eligibleRequests : List TransferRequest)
    (st : AllocState) : AllocState :=
  threeWayLoopI env eligibleRequests st

/-- Inner (`j`) loop of the pairwise scan: first qualifying partner
wins (`break` on successful creation). -/
def twoWayLoopJ (env : MatchEnv) (request1 : TransferRequest) :
    List TransferRequest → AllocState → AllocState
  | [], st => st
  | request2 :: rest, st =>
    if st.processed.contains request2.id then twoWayLoopJ env request1 rest st
    else if request1.user_id == request2.user_id then twoWayLoopJ env request1 rest st
    else
      if 50 ≤ (calculateCompatibility request1 request2).total then
        match createTwoWayMatch env st.db request1 request2
            (calculateCompatibility request1 request2) with
        | (db1, some _) =>
          { db := db1
            processed := addId (addId st.processed request1.id) request2.id
            count := st.count + 1
            groups := st.groups ++ [[request1, request2]] }
        | (db1, none) => twoWayLoopJ env request1 rest { st with db := db1 }
      else twoWayLoopJ env request1 rest st

/-- Outer (`i`) loop of the pairwise scan. -/
def twoWayLoopI (env : MatchEnv) :
    List TransferRequest → AllocState → AllocState
  | [], st => st
  | request1 :: rest, st =>
    if st.processed.contains request1.id then twoWayLoopI env rest st
    else twoWayLoopI env rest (twoWayLoopJ env request1 rest st)

/-- `runMatchingAlgorithm` over an already-loaded eligible pool:
returns `(matchesCreated, requestsProcessed)` together with the final
allocator state. -/
def runMatchingAlgorithm (env : MatchEnv) (db : MatchDb)
    (eligibleRequests : List TransferRequest) : (Nat × Nat) × AllocState :=
  if eligibleRequests.length < 2 then
    ((0, 0), { db := db, processed := [], count := 0, groups := [] })
  else
    let st0 : AllocState := { db := db, processed := [], count := 0, groups := [] }
    let st1 := if 3 ≤ eligibleRequests.length then findThreeWayMatches env eligibleRequests st0
      else st0
    let st2 := twoWayLoopI env eligibleRequests st1
    ((st2.count, st2.processed.length), st2)

/-- A row of the `transfer_requests` select in `getEligibleRequests`
(already filtered server-side to `status = submitted` and unexpired). -/
structure RawRequest where
  id : String
  user_id : String
  current_school_id : Nat
  appointment_category_id : Nat
  medium_of_instruction : String
  geographic_flexibility : GeoFlexibility
  urgency_level : UrgencyLevel
  status : String
  expires_at : Nat
  current_school : Option School
deriving DecidableEq, Repr

/-- A row of the `transfer_request_preferences` query. -/
structure PreferenceRow where
  transfer_request_id : String
  preferred_school_id : Nat
  preference_rank : Nat
deriving DecidableEq, Repr

/-- A row of the `transfer_request_subjects` query. -/
structure SubjectRow where
  transfer_request_id : String
  subject_id : Nat
deriving DecidableEq, Repr

/-- A row of the `transfer_match_participants` query joined with the
match status. -/
structure ExistingParticipantRow where
  transfer_request_id : String
  matchStatus : Option MatchStatus
deriving DecidableEq, Repr

/-- The four persistence-collaborator calls made during pool load, each
with its own success-or-failure outcome. -/
structure PoolDb where
  requestsQ : Except String (List RawRequest)
  preferencesQ : Except String (List PreferenceRow)
  subjectsQ : Except String (List SubjectRow)
  participantsQ : Except String (List ExistingParticipantRow)

/-- `const { data } = await ...` with the error field discarded: a
failed query degrades to an empty result instead of aborting. -/
def dataOrEmpty (q : Except String (List α)) : List α :=
  match q with
  | .ok l => l
  | .error _ => []

/-- The school-chain transformation `getEligibleRequests` applies to
each row: rebuilds `division.zone.district.province` with every level
above a present school forced to exist and the district/province kept
only when present in the raw data. -/
def transformSchool (cs : Option School) : Option School :=
  match cs with
  | none => none
  | some s =>
    let districtRaw := ((s.division.bind Division.zone)).bind Zone.district
    let newDistrict : Option District :=
      districtRaw.map (fun d => { id := d.id, province := d.province.map (fun p => { id := p.id }) })
    some { division := some { zone := some { district := newDistrict } } }

/-- `getEligibleRequests`: aborts only when the `transfer_requests`
query itself fails; the preferences, subjects and existing-participant
queries fall back to empty data. Requests already in a pending or
accepted match are excluded; the rest are enriched. -/
def getEligibleRequests (db : PoolDb) : Except String (List TransferRequest) :=
  match db.requestsQ with
  | .error e => .error e
  | .ok requests =>
    if requests.isEmpty then .ok []
    else
      let preferences := dataOrEmpty db.preferencesQ
      let requestSubjects := dataOrEmpty db.subjectsQ
      let existingParticipants := dataOrEmpty db.participantsQ
      let requestsInActiveMatches :=
        (existingParticipants.filter (fun p =>
          p.matchStatus == some .pending || p.matchStatus == some .accepted)).map
          (fun p => p.transfer_request_id)
      .ok ((requests.filter (fun r => !requestsInActiveMatches.contains r.id)).map (fun r =>
        { id := r.id
          user_id := r.user_id
          current_school_id := r.current_school_id
          appointment_category_id := r.appointment_category_id
          medium_of_instruction := r.medium_of_instruction
          geographic_flexibility := r.geographic_flexibility
          urgency_level := r.urgency_level
          status := r.status
          current_school := transformSchool r.current_school
          preferred_schools :=
            (preferences.filter (fun p => p.transfer_request_id == r.id)).map
              (fun p => { preferred_school_id := p.preferred_school_id,
                          preference_rank := p.preference_rank })
          subjects :=
            (requestSubjects.filter (fun s => s.transfer_request_id == r.id)).map
              (fun s => s.subject_id) }))

/-- A row of the `transfer_requests` table as touched by the response
state machine (only the status is mutated there). -/
structure RequestRow where
  id : String
  status : String
deriving DecidableEq, Repr

/-- The persistence state seen by `MatchesService.acceptMatch` /
`rejectMatch`. -/
structure ResponseDb where
  transfer_matches : List MatchRow
  participants : List ParticipantRow
  requests : List RequestRow
deriving Repr

/-- `MatchesService.acceptMatch`: updates the caller's participant row
to `accepted`; `.single()` turns an empty update into an error (state
untouched in that case). If every participant of the match has then
accepted, the match row is set to `accepted` (whatever its current
status — there is no pending guard) and all the match's transfer
requests are set to `matched`. -/
def acceptMatch (now : Nat) (db : ResponseDb) (matchId : Nat) (userId : String) :
    ResponseDb × Except String ParticipantRow :=
  let hit := fun (p : ParticipantRow) => p.match_id == matchId && p.user_id == userId
  let updatedParticipants := db.participants.map (fun p =>
    if hit p then { p with response_status := .accepted, responded_at := some now } else p)
  match db.participants.filter hit with
  | [p] =>
    let db1 : ResponseDb := { db with participants := updatedParticipants }
    let row := { p with response_status := ResponseStatus.accepted, responded_at := some now }
    let allParticipants := db1.participants.filter (fun q => q.match_id == matchId)
    let allAccepted := allParticipants.all (fun q => q.response_status == .accepted)
    if allAccepted then
      let db2 : ResponseDb := { db1 with transfer_matches := db1.transfer_matches.map (fun m =>
        if m.id == matchId then { m with status := .accepted } else m) }
      let requestIds := allParticipants.map (fun q => q.transfer_request_id)
      let db3 : ResponseDb := { db2 with requests := db2.requests.map (fun r =>
        if requestIds.contains r.id then { r with status := "matched" } else r) }
      (db3, .ok row)
    else (db1, .ok row)
  | _ => ({ db with participants := updatedParticipants },
      .error "JSON object requested, multiple (or no) rows returned")

/-- `MatchesService.rejectMatch`: updates the caller's participant row
to `rejected` (empty update errors via `.single()`), then
unconditionally sets the match row to `rejected` (whatever its current
status) and every transfer request of the match back to `submitted`. -/
def rejectMatch (now : Nat) (db : ResponseDb) (matchId : Nat) (userId : String) :
    ResponseDb × Except String ParticipantRow :=
  let hit := fun (p : ParticipantRow) => p.match_id == matchId && p.user_id == userId
  let updatedParticipants := db.participants.map (fun p =>
    if hit p then { p with response_status := .rejected, responded_at := some now } else p)
  match db.participants.filter hit with
  | [p] =>
    let db1 : ResponseDb := { db with participants := updatedParticipants }
    let row := { p with response_status := ResponseStatus.rejected, responded_at := some now }
    let requestIds := (db1.participants.filter (fun q => q.match_id == matchId)).map
      (fun q => q.transfer_request_id)
    let db2 : ResponseDb := { db1 with transfer_matches := db1.transfer_matches.map (fun m =>
      if m.id == matchId then { m with status := .rejected } else m) }
    let db3 : ResponseDb := { db2 with requests := db2.requests.map (fun r =>
      if requestIds.contains r.id then { r with status := "submitted" } else r) }
    (db3, .ok row)
  | _ => ({ db with participants := updatedParticipants },
      .error "JSON object requested, multiple (or no) rows returned")

/-- The predicate of the `expireOldMatches` update:
`status = pending` and `expires_at < now`. -/
def expirable (now : Nat) (m : MatchRow) : Bool :=
  m.status == .pending && m.expires_at < now

/-- `expireOldMatches`: one sweep updating every pending match whose
expiry is strictly in the past to `expired`, returning the updated
rows' count. -/
def expireOldMatches (now : Nat) (ms : List MatchRow) : List MatchRow × Nat :=
  let updated := ms.map (fun m => if expirable now m then { m with status := .expired } else m)
  (updated, (ms.filter (expirable now)).length)

/-- The one-sided geographic rule table, stated the way the amended
claim reads: missing or zero district on either side scores 0; same
district 20; same province 15 when the moving side's flexibility is
wider than district-only; otherwise 10 exactly when the moving side is
nationwide and the provinces differ or are insufficient. -/
def oneSidedGeoSpec (frm tgt : TransferRequest) : Nat :=
  match districtId frm, districtId tgt with
  | some df, some dt =>
    if df = 0 ∨ dt = 0 then 0
    else if df = dt then 20
    else if provinceId frm = provinceId tgt ∧ frm.geographic_flexibility ≠ .district_only then 15
    else if frm.geographic_flexibility = .nationwide then 10
    else 0
  | _, _ => 0

/-- A minimal eligible request used by the concrete scenarios: category
1, sinhala medium, district-only flexibility, normal urgency, subject
set `{1}`, no location data. -/
def baseReq (i u : String) (school : Nat) (prefs : List PreferredSchool) : TransferRequest :=
  { id := i, user_id := u, current_school_id := school, appointment_category_id := 1,
    medium_of_instruction := "sinhala", geographic_flexibility := .district_only,
    urgency_level := .normal, status := "submitted", preferred_schools := prefs,
    subjects := [1], current_school := none }

/-- A full location chain: school in district `d`, province `p`. -/
def mkSchool (d p : Nat) : Option School :=
  some { division := some { zone := some { district := some { id := d, province := some { id := p } } } } }

/-- A location chain with the province missing above a present district. -/
def mkSchoolNoProvince (d : Nat) : Option School :=
  some { division := some { zone := some { district := some { id := d, province := none } } } }

def reqA : TransferRequest := baseReq "A" "u1" 1 [{ preferred_school_id := 2, preference_rank := 1 }]
def reqB : TransferRequest := baseReq "B" "u2" 2
  [{ preferred_school_id := 3, preference_rank := 1 }, { preferred_school_id := 4, preference_rank := 2 }]
def reqC : TransferRequest := baseReq "C" "u3" 3 [{ preferred_school_id := 1, preference_rank := 1 }]
def reqD : TransferRequest := baseReq "D" "u4" 4 [{ preferred_school_id := 1, preference_rank := 1 }]

/-- Four requests in which (A,B,C) and (A,B,D) both form gated,
above-threshold three-way cycles. -/
def overlapPool : List TransferRequest := [reqA, reqB, reqC, reqD]

/-- Pool whose only three-way cycle runs in the orientation opposite to
the enumeration order: A prefers C's school, C prefers B's, B prefers
A's. -/
def revA : TransferRequest := baseReq "A" "u1" 1 [{ preferred_school_id := 3, preference_rank := 1 }]
def revB : TransferRequest := baseReq "B" "u2" 2 [{ preferred_school_id := 1, preference_rank := 1 }]
def revC : TransferRequest := baseReq "C" "u3" 3 [{ preferred_school_id := 2, preference_rank := 1 }]

/-- Reverse-cycle pool for the orientation counterexample. -/
def reversePool : List TransferRequest := [revA, revB, revC]

/-- Requests for the geographic-table counterexample: A and C in
district 1, B in district 2, all in province 1; A and C province-wide,
B district-only. -/
def geoA : TransferRequest :=
  { baseReq "A" "u1" 1 [] with
    current_school := mkSchool 1 1
    geographic_flexibility := .province_wide }
def geoB : TransferRequest :=
  { baseReq "B" "u2" 2 [] with
    current_school := mkSchool 2 1
    geographic_flexibility := .district_only }
def geoC : TransferRequest :=
  { baseReq "C" "u3" 3 [] with
    current_school := mkSchool 1 1
    geographic_flexibility := .province_wide }

/-- Requests with present district ids but missing provinces (an
incomplete location chain on both sides). -/
def noProvA : TransferRequest :=
  { baseReq "A" "u1" 1 [] with
    current_school := mkSchoolNoProvince 1
    geographic_flexibility := .province_wide }
def noProvB : TransferRequest :=
  { baseReq "B" "u2" 2 [] with
    current_school := mkSchoolNoProvince 2
    geographic_flexibility := .province_wide }

/-- Mutual rank-1 pair in the same district where one side carries 31
subjects and shares exactly one of them. -/
def subjWideR1 : TransferRequest :=
  { baseReq "R1" "u1" 1 [{ preferred_school_id := 2, preference_rank := 1 }] with
    current_school := mkSchool 10 100
    subjects := [0] }
def subjWideR2 : TransferRequest :=
  { baseReq "R2" "u2" 2 [{ preferred_school_id := 1, preference_rank := 1 }] with
    current_school := mkSchool 10 100
    subjects := List.range 31 }

/-- Mutual rank-1 pair in the same district sharing their single
subject (the witness pool for the two-request scenario). -/
def pairR1 : TransferRequest :=
  { baseReq "R1" "u1" 1 [{ preferred_school_id := 2, preference_rank := 1 }] with
    current_school := mkSchool 10 100 }
def pairR2 : TransferRequest :=
  { baseReq "R2" "u2" 2 [{ preferred_school_id := 1, preference_rank := 1 }] with
    current_school := mkSchool 10 100 }

/-- A two-participant match already `expired`, with one acceptance
recorded and one still pending. -/
def expiredMatchDb : ResponseDb :=
  { transfer_matches :=
      [{ id := 5, match_type := .two_way, compatibility_score := 90,
         status := .expired, expires_at := 0 }],
    participants :=
      [ { match_id := 5, transfer_request_id := "tr1", user_id := "u1",
          swap_position := 1, response_status := .accepted, responded_at := some 1 },
        { match_id := 5, transfer_request_id := "tr2", user_id := "u2",
          swap_position := 2, response_status := .pending, responded_at := none } ],
    requests := [{ id := "tr1", status := "submitted" }, { id := "tr2", status := "submitted" }] }

/-- One eligible raw request. -/
def rawR1 : RawRequest :=
  { id := "R1", user_id := "u1", current_school_id := 1, appointment_category_id := 1,
    medium_of_instruction := "sinhala", geographic_flexibility := .district_only,
    urgency_level := .normal, status := "submitted", expires_at := 99, current_school := none }

/-- Pool-load state in which the preferences query fails while the
other three queries succeed. -/
def prefFailPoolDb : PoolDb :=
  { requestsQ := .ok [rawR1], preferencesQ := .error "db down",
    subjectsQ := .ok [{ transfer_request_id := "R1", subject_id := 7 }],
    participantsQ := .ok [] }

/-- Four matches: one stale pending, one accepted, one rejected, one
pending but not yet expired. -/
def sweepRows : List MatchRow :=
  [ { id := 1, match_type := .two_way, compatibility_score := 90, status := .pending, expires_at := 5 },
    { id := 2, match_type := .two_way, compatibility_score := 80, status := .accepted, expires_at := 5 },
    { id := 3, match_type := .circular_three, compatibility_score := 70, status := .rejected, expires_at := 5 },
    { id := 4, match_type := .two_way, compatibility_score := 60, status := .pending, expires_at := 20 } ]

/-- C1. Within one run of `runMatchingAlgorithm` on the four-request
pool `overlapPool`, the triple enumeration allocates requests A and B
into two different circular groups — (A,B,C) and then, continuing the
inner loop without re-checking the outer indices, (A,B,D) — so the
allocated groups are not pairwise disjoint and the claimed invariant
fails on the code. -/
theorem tripleAllocation_overlap_bug :
    ((runMatchingAlgorithm envAllOk emptyMatchDb overlapPool).2.groups.map
        (fun g => g.map TransferRequest.id))
      = [["A", "B", "C"], ["A", "B", "D"]]
    ∧ (runMatchingAlgorithm envAllOk emptyMatchDb overlapPool).1 = (2, 4)
    ∧ ¬ (∀ g1 ∈ (runMatchingAlgorithm envAllOk emptyMatchDb overlapPool).2.groups.map
          (fun g => g.map TransferRequest.id),
         ∀ g2 ∈ (runMatchingAlgorithm envAllOk emptyMatchDb overlapPool).2.groups.map
          (fun g => g.map TransferRequest.id),
         g1 = g2 ∨ ∀ x ∈ g1, x ∉ g2) := by
  refine ⟨by decide, by decide, ?_⟩
  intro h
  have := h ["A", "B", "C"] (by decide) ["A", "B", "D"] (by decide)
  rcases this with hco | hco
  · exact absurd hco (by decide)
  · exact absurd (hco "A" (by decide)) (by decide)

/-- C2 counterexample. `acceptMatch` called against a match whose
status is `expired` (not `pending`) is not rejected: it succeeds,
records the acceptance, moves the match to `accepted` and the
underlying requests to `matched` — resurrecting a non-pending match and
falsifying the claimed guard. -/
theorem accept_resurrects_expired_match :
    expiredMatchDb.transfer_matches.map MatchRow.status = [.expired]
    ∧ (acceptMatch 99 expiredMatchDb 5 "u2").2.toOption
        = some { match_id := 5, transfer_request_id := "tr2", user_id := "u2",
                 swap_position := 2, response_status := .accepted, responded_at := some 99 }
    ∧ (acceptMatch 99 expiredMatchDb 5 "u2").1.transfer_matches.map MatchRow.status
        = [.accepted]
    ∧ (acceptMatch 99 expiredMatchDb 5 "u2").1.requests.map RequestRow.status
        = ["matched", "matched"] := by
  decide

/-- C3 counterexample. On `reversePool` the unordered triple {A,B,C}
has a directed cycle in the orientation A→C→B→A that passes every gate
(distinct users, category, medium, all three subject overlaps) and
scores 50 ≥ 40, yet the detector — which tests only the
enumeration-order orientation A→B→C→A — allocates nothing. -/
theorem reverse_cycle_not_found :
    (wantsSchoolOf revA revC && wantsSchoolOf revC revB && wantsSchoolOf revB revA) = true
    ∧ (hasCommonSubjects revA revC && hasCommonSubjects revC revB
        && hasCommonSubjects revB revA) = true
    ∧ 40 ≤ calculateThreeWayCompatibility revA revC revB
    ∧ (runMatchingAlgorithm envAllOk emptyMatchDb reversePool).2.groups = []
    ∧ (runMatchingAlgorithm envAllOk emptyMatchDb reversePool).1 = (0, 0) := by
  decide

/-- C4 counterexample. The three-way geographic component is not the
rounded average of the three pairwise `calculateGeographicCompatibility`
scores: on (geoA, geoB, geoC) the code's directed one-sided table gives
round((15+0+20)/3) = 12 while the pairwise table gives
round((5+5+20)/3) = 10. -/
theorem threeWayGeo_differs_from_pairwise_table :
    threeWayGeoComponent geoA geoB geoC = 12
    ∧ natRoundDiv (calculateGeographicCompatibility geoA geoB
        + calculateGeographicCompatibility geoB geoC
        + calculateGeographicCompatibility geoC geoA) 3 = 10
    ∧ threeWayGeoComponent geoA geoB geoC
        ≠ natRoundDiv (calculateGeographicCompatibility geoA geoB
            + calculateGeographicCompatibility geoB geoC
            + calculateGeographicCompatibility geoC geoA) 3 := by
  decide

/-- C5 counterexample. A failing preferences query during pool load
does not abort the run: `getEligibleRequests` still returns `ok`, with
the request enriched against an empty preference list (a degraded pool
is matched against). -/
theorem poolLoad_preference_failure_not_aborting :
    prefFailPoolDb.preferencesQ.isOk = false
    ∧ (getEligibleRequests prefFailPoolDb).isOk = true
    ∧ (getEligibleRequests prefFailPoolDb).toOption
        = some [{ id := "R1", user_id := "u1", current_school_id := 1,
                  appointment_category_id := 1, medium_of_instruction := "sinhala",
                  geographic_flexibility := .district_only, urgency_level := .normal,
                  status := "submitted", preferred_schools := [], subjects := [7],
                  current_school := none }] := by
  decide

/-- C7 counterexample. Both requests have an incomplete location chain
(district present, province missing), yet the pairwise geographic
component is 15, not 0: the two absent provinces compare equal, so the
same-province branch fires. -/
theorem geo_nonzero_with_missing_province :
    provinceId noProvA = none
    ∧ provinceId noProvB = none
    ∧ calculateGeographicCompatibility noProvA noProvB = 15
    ∧ calculateGeographicCompatibility noProvA noProvB ≠ 0 := by
  decide

/-- C9 counterexample. A pool of two requests satisfying every premise
of the claim (mutual rank-1 preference, equal category and medium, both
normal urgency, a shared subject, same district) in which the subject
component is 0, not > 0: one side carries 31 subjects and shares one,
and round(15·1/31) = 0. The total is still 85 and the match is still
created, but the claimed breakdown fails. -/
theorem mutual_pair_subjects_component_zero :
    findRank subjWideR2.preferred_schools subjWideR1.current_school_id = some 1
    ∧ findRank subjWideR1.preferred_schools subjWideR2.current_school_id = some 1
    ∧ subjWideR1.appointment_category_id = subjWideR2.appointment_category_id
    ∧ subjWideR1.medium_of_instruction = subjWideR2.medium_of_instruction
    ∧ subjWideR1.urgency_level = .normal ∧ subjWideR2.urgency_level = .normal
    ∧ hasCommonSubjects subjWideR1 subjWideR2 = true
    ∧ districtId subjWideR1 = some 10 ∧ districtId subjWideR2 = some 10
    ∧ (calculateCompatibility subjWideR1 subjWideR2).subjects = 0
    ∧ (calculateCompatibility subjWideR1 subjWideR2).total = 85 := by
  decide

/-- C7 amended. What forces the pairwise geographic component to 0 is
a missing (or zero) district id on either side; a chain that is
incomplete only above the district level does not. -/
theorem geo_zero_when_district_missing (request1 request2 : TransferRequest)
    (h : falsyOpt (districtId request1) = true ∨ falsyOpt (districtId request2) = true) :
    calculateGeographicCompatibility request1 request2 = 0 := by
  unfold calculateGeographicCompatibility
  rcases h with h | h <;> simp [h]

/-- Witness for `geo_zero_when_district_missing`: a request with no
location data at all on the left side. -/
theorem geo_zero_when_district_missing_witness :
    falsyOpt (districtId (baseReq "A" "u1" 1 [])) = true
    ∧ calculateGeographicCompatibility (baseReq "A" "u1" 1 []) noProvB = 0 :=
  ⟨by decide, geo_zero_when_district_missing (baseReq "A" "u1" 1 []) noProvB (Or.inl (by decide))⟩

/-- C5 amended. The run aborts exactly when the eligible-requests
query itself fails: that error is propagated to the caller unchanged.
(The other three pool-load queries degrade to empty data instead, as
the counterexample shows.) -/
theorem poolLoad_requests_failure_aborts (db : PoolDb) (e : String)
    (h : db.requestsQ = .error e) :
    getEligibleRequests db = .error e := by
  unfold getEligibleRequests
  rw [h]

/-- Pool-load state whose eligible-requests query fails. -/
def requestsFailPoolDb : PoolDb :=
  { requestsQ := .error "connection reset", preferencesQ := .ok [],
    subjectsQ := .ok [], participantsQ := .ok [] }

/-- Witness for `poolLoad_requests_failure_aborts`. -/
theorem poolLoad_requests_failure_aborts_witness :
    requestsFailPoolDb.requestsQ = .error "connection reset"
    ∧ getEligibleRequests requestsFailPoolDb = .error "connection reset" :=
  ⟨rfl, poolLoad_requests_failure_aborts requestsFailPoolDb "connection reset" rfl⟩

/-- C10. `expireOldMatches` reports exactly the pending-and-stale rows
as its count, moves each of them to `expired`, leaves every
non-pending (accepted/rejected/expired) row untouched, and a second
sweep at the same instant finds nothing to change. -/
theorem expireOldMatches_idempotent_and_scoped (now : Nat) (ms : List MatchRow) :
    (expireOldMatches now ms).2 = (ms.filter (expirable now)).length
    ∧ (∀ m ∈ ms, expirable now m = true →
        { m with status := MatchStatus.expired } ∈ (expireOldMatches now ms).1)
    ∧ (∀ m ∈ ms, m.status ≠ .pending → m ∈ (expireOldMatches now ms).1)
    ∧ (expireOldMatches now (expireOldMatches now ms).1).2 = 0 := by
  refine ⟨rfl, ?_, ?_, ?_⟩
  · intro m hm hex
    exact List.mem_map.mpr ⟨m, hm, by simp [hex]⟩
  · intro m hm hst
    have hb : (m.status == MatchStatus.pending) = false := beq_eq_false_iff_ne.mpr hst
    refine List.mem_map.mpr ⟨m, hm, ?_⟩
    have hex : expirable now m = false := by simp [expirable, hb]
    simp [hex]
  · have hall : ∀ m' ∈ (expireOldMatches now ms).1, expirable now m' = false := by
      intro m' hm'
      obtain ⟨m, _, rfl⟩ := List.mem_map.mp hm'
      by_cases hex : expirable now m = true
      · rw [if_pos hex]
        simp [expirable]
      · rw [if_neg hex]
        simp only [Bool.not_eq_true] at hex
        exact hex
    have : (expireOldMatches now ms).1.filter (expirable now) = [] :=
      List.filter_eq_nil_iff.mpr (fun a ha => by simp [hall a ha])
    show ((expireOldMatches now ms).1.filter (expirable now)).length = 0
    rw [this]
    rfl

/-- Witness for `expireOldMatches_idempotent_and_scoped` on the
four-row table `sweepRows` at time 10. -/
theorem expireOldMatches_idempotent_and_scoped_witness :
    ({ id := 1, match_type := MatchType.two_way, compatibility_score := 90,
       status := MatchStatus.expired, expires_at := 5 } : MatchRow)
        ∈ (expireOldMatches 10 sweepRows).1
    ∧ ({ id := 2, match_type := MatchType.two_way, compatibility_score := 80,
         status := MatchStatus.accepted, expires_at := 5 } : MatchRow)
        ∈ (expireOldMatches 10 sweepRows).1
    ∧ (expireOldMatches 10 (expireOldMatches 10 sweepRows).1).2 = 0 := by
  refine ⟨?_, ?_, (expireOldMatches_idempotent_and_scoped 10 sweepRows).2.2.2⟩
  · exact (expireOldMatches_idempotent_and_scoped 10 sweepRows).2.1
      { id := 1, match_type := .two_way, compatibility_score := 90,
        status := .pending, expires_at := 5 } (by decide) (by decide)
  · exact (expireOldMatches_idempotent_and_scoped 10 sweepRows).2.2.1
      { id := 2, match_type := .two_way, compatibility_score := 80,
        status := .accepted, expires_at := 5 } (by decide) (by decide)

/-- C2 amended. The non-participant half of the claim holds: when the
caller has no participant row in the match, both `acceptMatch` and
`rejectMatch` surface an error and leave the state untouched. (There
is, however, no guard on the match's status: the counterexample shows
an expired match being driven to `accepted`.) -/
theorem acceptReject_nonparticipant_error_no_mutation (now : Nat) (db : ResponseDb)
    (matchId : Nat) (userId : String)
    (h : db.participants.filter (fun p => p.match_id == matchId && p.user_id == userId) = []) :
    acceptMatch now db matchId userId
      = (db, .error "JSON object requested, multiple (or no) rows returned")
    ∧ rejectMatch now db matchId userId
      = (db, .error "JSON object requested, multiple (or no) rows returned") := by
  have hnone : ∀ p ∈ db.participants,
      (p.match_id == matchId && p.user_id == userId) = false := by
    intro p hp
    have := List.filter_eq_nil_iff.mp h p hp
    simpa using this
  have hmapA : db.participants.map (fun p =>
      if p.match_id == matchId && p.user_id == userId then
        { p with response_status := ResponseStatus.accepted, responded_at := some now }
      else p) = db.participants := by
    have heach : ∀ p ∈ db.participants, (fun p =>
        if p.match_id == matchId && p.user_id == userId then
          { p with response_status := ResponseStatus.accepted, responded_at := some now }
        else p) p = id p := by
      intro p hp
      simp [hnone p hp]
    rw [List.map_congr_left heach, List.map_id]
  have hmapR : db.participants.map (fun p =>
      if p.match_id == matchId && p.user_id == userId then
        { p with response_status := ResponseStatus.rejected, responded_at := some now }
      else p) = db.participants := by
    have heach : ∀ p ∈ db.participants, (fun p =>
        if p.match_id == matchId && p.user_id == userId then
          { p with response_status := ResponseStatus.rejected, responded_at := some now }
        else p) p = id p := by
      intro p hp
      simp [hnone p hp]
    rw [List.map_congr_left heach, List.map_id]
  constructor
  · simp only [acceptMatch]
    rw [h, hmapA]
  · simp only [rejectMatch]
    rw [h, hmapR]

/-- The preference-rank component of the three-way score. -/
def threeWayPreferenceComponent (reqA reqB reqC : TransferRequest) : Int :=
  min ((6 - (rankOr5 (findRank reqA.preferred_schools reqB.current_school_id) : Int)) * 2
    + (6 - (rankOr5 (findRank reqB.preferred_schools reqC.current_school_id) : Int)) * 2
    + (6 - (rankOr5 (findRank reqC.preferred_schools reqA.current_school_id) : Int)) * 2) 40

/-- The subject-overlap component of the three-way score. -/
def threeWaySubjectComponent (reqA reqB reqC : TransferRequest) : Nat :=
  min (natRoundDiv (10 * ((reqA.subjects.filter (fun s => reqB.subjects.contains s)).length
    + (reqB.subjects.filter (fun s => reqC.subjects.contains s)).length
    + (reqC.subjects.filter (fun s => reqA.subjects.contains s)).length)) 3) 30

/-- The urgency component of the three-way score. -/
def threeWayUrgencyComponent (reqA reqB reqC : TransferRequest) : Int :=
  if (reqA.urgency_level == .high && reqB.urgency_level == .high
      && reqC.urgency_level == .high)
    || (reqA.urgency_level == .normal && reqB.urgency_level == .normal
      && reqC.urgency_level == .normal) then 10 else 5

/-- `getGeoFeasibilityScore` agrees with the one-sided rule table
`oneSidedGeoSpec` stated in the amended claim's words. -/
theorem getGeoFeasibilityScore_eq_spec (x y : TransferRequest) :
    getGeoFeasibilityScore x y = oneSidedGeoSpec x y := by
  unfold getGeoFeasibilityScore oneSidedGeoSpec
  cases hdx : districtId x with
  | none => simp [falsyOpt]
  | some df =>
    cases hdy : districtId y with
    | none => simp [falsyOpt]
    | some dt =>
      by_cases h0 : df = 0
      · simp [falsyOpt, h0]
      · by_cases h1 : dt = 0
        · simp [falsyOpt, h0, h1]
        · by_cases hdd : df = dt
          · simp [falsyOpt, h0, h1, hdd]
          · by_cases hpp : provinceId x = provinceId y
            · cases hfl : x.geographic_flexibility <;>
                simp [falsyOpt, h0, h1, hdd, hpp, hfl]
            · cases hfl : x.geographic_flexibility <;>
                simp [falsyOpt, h0, h1, hdd, hpp, hfl]

/-- C4 amended. The three-way geographic component is the rounded
average of the three directed adjacent-pair scores computed with
`getGeoFeasibilityScore` — the one-sided rule table that consults only
the moving side's flexibility tag and has no 5-point branch — not the
pairwise scorer's table; the total is the clamped sum of the four
components so decomposed. -/
theorem threeWayGeo_is_one_sided_average (reqA reqB reqC x y : TransferRequest) :
    calculateThreeWayCompatibility reqA reqB reqC
      = min (threeWayPreferenceComponent reqA reqB reqC
          + (threeWaySubjectComponent reqA reqB reqC : Int)
          + (threeWayGeoComponent reqA reqB reqC : Int)
          + threeWayUrgencyComponent reqA reqB reqC) 100
    ∧ threeWayGeoComponent reqA reqB reqC
      = natRoundDiv (getGeoFeasibilityScore reqA reqB + getGeoFeasibilityScore reqB reqC
          + getGeoFeasibilityScore reqC reqA) 3
    ∧ getGeoFeasibilityScore x y = oneSidedGeoSpec x y :=
  ⟨rfl, rfl, getGeoFeasibilityScore_eq_spec x y⟩

/-- Witness for `acceptReject_nonparticipant_error_no_mutation`: user
u9 is not a participant of match 5. -/
theorem acceptReject_nonparticipant_error_no_mutation_witness :
    expiredMatchDb.participants.filter (fun p => p.match_id == 5 && p.user_id == "u9") = []
    ∧ acceptMatch 7 expiredMatchDb 5 "u9"
        = (expiredMatchDb, .error "JSON object requested, multiple (or no) rows returned")
    ∧ rejectMatch 7 expiredMatchDb 5 "u9"
        = (expiredMatchDb, .error "JSON object requested, multiple (or no) rows returned") := by
  have h := acceptReject_nonparticipant_error_no_mutation 7 expiredMatchDb 5 "u9" (by decide)
  exact ⟨by decide, h.1, h.2⟩

/-- The property C8 asserts of an allocated group: a three-element
group has all three adjacent pairwise subject overlaps non-empty (any
other shape is unconstrained). -/
def tripleSubjectGate : List TransferRequest → Prop
  | [a, b, c] => hasCommonSubjects a b = true ∧ hasCommonSubjects b c = true
      ∧ hasCommonSubjects c a = true
  | _ => True

/-- Every group `threeWayBody` appends passes the subject gate. -/
theorem threeWayBody_subjectGate (env : MatchEnv) (a b c : TransferRequest)
    (st : AllocState) (hP : ∀ g ∈ st.groups, tripleSubjectGate g) :
    ∀ g ∈ (threeWayBody env a b c st).groups, tripleSubjectGate g := by
  unfold threeWayBody
  split
  · exact hP
  · split
    · split
      · exact hP
      · split
        · exact hP
        · split
          · rename_i hsub _
            rcases hc : createThreeWayMatch env st.db a b c
                (calculateThreeWayCompatibility a b c) with ⟨db1, mid⟩
            cases mid with
            | some m =>
              simp only [hc]
              intro g hg
              rcases List.mem_append.mp hg with hg | hg
              · exact hP g hg
              · have hab : hasCommonSubjects a b = true ∧ hasCommonSubjects b c = true
                    ∧ hasCommonSubjects c a = true := by
                  revert hsub
                  cases hasCommonSubjects a b <;> cases hasCommonSubjects b c <;>
                    cases hasCommonSubjects c a <;> simp
                have : g = [a, b, c] := by simpa using hg
                rw [this]
                exact hab
            | none =>
              simp only [hc]
              exact hP
          · exact hP
    · exact hP

/-- The subject-gate property is preserved by the innermost triple
loop. -/
theorem threeWayLoopK_subjectGate (env : MatchEnv) (a b : TransferRequest) :
    ∀ (rest : List TransferRequest) (st : AllocState),
      (∀ g ∈ st.groups, tripleSubjectGate g) →
      ∀ g ∈ (threeWayLoopK env a b rest st).groups, tripleSubjectGate g := by
  intro rest
  induction rest with
  | nil => intro st hP; exact hP
  | cons c rest ih =>
    intro st hP
    unfold threeWayLoopK
    split
    · exact ih st hP
    · exact ih _ (threeWayBody_subjectGate env a b c st hP)

/-- The subject-gate property is preserved by the middle triple loop. -/
theorem threeWayLoopJ_subjectGate (env : MatchEnv) (a : TransferRequest) :
    ∀ (rest : List TransferRequest) (st : AllocState),
      (∀ g ∈ st.groups, tripleSubjectGate g) →
      ∀ g ∈ (threeWayLoopJ env a rest st).groups, tripleSubjectGate g := by
  intro rest
  induction rest with
  | nil => intro st hP; exact hP
  | cons b rest ih =>
    intro st hP
    unfold threeWayLoopJ
    split
    · exact ih st hP
    · exact ih _ (threeWayLoopK_subjectGate env a b rest st hP)

/-- The subject-gate property is preserved by the outer triple loop. -/
theorem threeWayLoopI_subjectGate (env : MatchEnv) :
    ∀ (rest : List TransferRequest) (st : AllocState),
      (∀ g ∈ st.groups, tripleSubjectGate g) →
      ∀ g ∈ (threeWayLoopI env rest st).groups, tripleSubjectGate g := by
  intro rest
  induction rest with
  | nil => intro st hP; exact hP
  | cons a rest ih =>
    intro st hP
    unfold threeWayLoopI
    split
    · exact ih st hP
    · exact ih _ (threeWayLoopJ_subjectGate env a rest st hP)

/-- The subject-gate property is preserved by the pairwise inner loop
(pairs are two-element groups, unconstrained by the gate). -/
theorem twoWayLoopJ_subjectGate (env : MatchEnv) (r1 : TransferRequest) :
    ∀ (rest : List TransferRequest) (st : AllocState),
      (∀ g ∈ st.groups, tripleSubjectGate g) →
      ∀ g ∈ (twoWayLoopJ env r1 rest st).groups, tripleSubjectGate g := by
  intro rest
  induction rest with
  | nil => intro st hP; exact hP
  | cons r2 rest ih =>
    intro st hP
    unfold twoWayLoopJ
    split
    · exact ih st hP
    · split
      · exact ih st hP
      · split
        · rcases hc : createTwoWayMatch env st.db r1 r2 (calculateCompatibility r1 r2)
            with ⟨db1, mid⟩
          cases mid with
          | some m =>
            simp only [hc]
            intro g hg
            rcases List.mem_append.mp hg with hg | hg
            · exact hP g hg
            · have : g = [r1, r2] := by simpa using hg
              rw [this]
              trivial
          | none =>
            simp only [hc]
            exact ih _ hP
        · exact ih st hP

/-- The subject-gate property is preserved by the pairwise outer loop. -/
theorem twoWayLoopI_subjectGate (env : MatchEnv) :
    ∀ (rest : List TransferRequest) (st : AllocState),
      (∀ g ∈ st.groups, tripleSubjectGate g) →
      ∀ g ∈ (twoWayLoopI env rest st).groups, tripleSubjectGate g := by
  intro rest
  induction rest with
  | nil => intro st hP; exact hP
  | cons r1 rest ih =>
    intro st hP
    unfold twoWayLoopI
    split
    · exact ih st hP
    · exact ih _ (twoWayLoopJ_subjectGate env r1 rest st hP)

/-- C8. In any run over any pool and any insert-failure environment,
every allocated three-element group has all three pairwise subject
intersections non-empty: a triple failing any of the three
`hasCommonSubjects` gates is never allocated, whatever its score. -/
theorem allocated_triples_pass_subject_gate (env : MatchEnv) (db : MatchDb)
    (pool : List TransferRequest) :
    ∀ g ∈ (runMatchingAlgorithm env db pool).2.groups, tripleSubjectGate g := by
  unfold runMatchingAlgorithm
  split
  · intro g hg
    simp at hg
  · apply twoWayLoopI_subjectGate
    split
    · apply threeWayLoopI_subjectGate
      intro g hg
      simp at hg
    · intro g hg
      simp at hg

/-- Witness for `allocated_triples_pass_subject_gate`: the triple
(A,B,C) allocated from `overlapPool` passes all three gates. -/
theorem allocated_triples_pass_subject_gate_witness :
    [reqA, reqB, reqC] ∈ (runMatchingAlgorithm envAllOk emptyMatchDb overlapPool).2.groups
    ∧ tripleSubjectGate [reqA, reqB, reqC] :=
  ⟨by decide,
    allocated_triples_pass_subject_gate envAllOk emptyMatchDb overlapPool
      [reqA, reqB, reqC] (by decide)⟩

/-- Every match row's id is below the next insertion id (true of any
state reachable from an empty table). -/
def MatchDbFresh (db : MatchDb) : Prop :=
  ∀ m ∈ db.transfer_matches, m.id < db.nextId

/-- Deleting the freshly inserted row by id restores the match table
exactly, because no pre-existing row carries the fresh id. -/
theorem filter_out_fresh_row (db : MatchDb) (row : MatchRow)
    (hfresh : MatchDbFresh db) (hrow : row.id = db.nextId) :
    (db.transfer_matches ++ [row]).filter (fun m => m.id != db.nextId)
      = db.transfer_matches := by
  rw [List.filter_append]
  have h1 : db.transfer_matches.filter (fun m => m.id != db.nextId) = db.transfer_matches := by
    apply List.filter_eq_self.mpr
    intro m hm
    have := hfresh m hm
    simp only [bne_iff_ne, ne_eq]
    omega
  have h2 : [row].filter (fun m => m.id != db.nextId) = [] := by
    simp [List.filter_cons, hrow]
  rw [h1, h2, List.append_nil]

/-- Under `envPartFail`, `createTwoWayMatch` reports no match, restores
the match table exactly (compensating rollback), inserts no
participants, and keeps freshness. -/
theorem createTwoWayMatch_envPartFail (db : MatchDb) (r1 r2 : TransferRequest)
    (comp : CompatibilityScore) (hfresh : MatchDbFresh db) :
    (createTwoWayMatch envPartFail db r1 r2 comp).1.transfer_matches = db.transfer_matches
    ∧ (createTwoWayMatch envPartFail db r1 r2 comp).1.participants = db.participants
    ∧ (createTwoWayMatch envPartFail db r1 r2 comp).2 = none
    ∧ MatchDbFresh (createTwoWayMatch envPartFail db r1 r2 comp).1 := by
  unfold createTwoWayMatch envPartFail
  split
  · exact ⟨rfl, rfl, rfl, hfresh⟩
  · split
    · exact ⟨rfl, rfl, rfl, hfresh⟩
    · split
      · exact ⟨rfl, rfl, rfl, hfresh⟩
      · simp only
        have hfilter := filter_out_fresh_row db
          { id := db.nextId, match_type := .two_way, compatibility_score := comp.total,
            status := .pending, expires_at := 0 + 7 } hfresh rfl
        refine ⟨hfilter, rfl, rfl, ?_⟩
        intro m hm
        rw [hfilter] at hm
        exact Nat.lt_succ_of_lt (hfresh m hm)

/-- Under `envPartFail`, `createThreeWayMatch` likewise rolls back
exactly and reports no match. -/
theorem createThreeWayMatch_envPartFail (db : MatchDb) (a b c : TransferRequest)
    (score : Int) (hfresh : MatchDbFresh db) :
    (createThreeWayMatch envPartFail db a b c score).1.transfer_matches = db.transfer_matches
    ∧ (createThreeWayMatch envPartFail db a b c score).1.participants = db.participants
    ∧ (createThreeWayMatch envPartFail db a b c score).2 = none
    ∧ MatchDbFresh (createThreeWayMatch envPartFail db a b c score).1 := by
  unfold createThreeWayMatch envPartFail
  simp only
  have hfilter := filter_out_fresh_row db
    { id := db.nextId, match_type := .circular_three, compatibility_score := score,
      status := .pending, expires_at := 0 + 7 } hfresh rfl
  refine ⟨hfilter, rfl, rfl, ?_⟩
  intro m hm
  rw [hfilter] at hm
  exact Nat.lt_succ_of_lt (hfresh m hm)

/-- Observational equality of allocator states: no group allocated, no
identity marked, no count taken, no observable table change. -/
def noAllocProgress (st0 st : AllocState) : Prop :=
  st.db.transfer_matches = st0.db.transfer_matches
  ∧ st.db.participants = st0.db.participants
  ∧ st.processed = st0.processed
  ∧ st.count = st0.count
  ∧ st.groups = st0.groups

theorem noAllocProgress_refl (s : AllocState) : noAllocProgress s s :=
  ⟨rfl, rfl, rfl, rfl, rfl⟩

theorem noAllocProgress_trans {s t u : AllocState}
    (h1 : noAllocProgress s t) (h2 : noAllocProgress t u) : noAllocProgress s u := by
  obtain ⟨a1, b1, c1, d1, e1⟩ := h1
  obtain ⟨a2, b2, c2, d2, e2⟩ := h2
  exact ⟨a2.trans a1, b2.trans b1, c2.trans c1, d2.trans d1, e2.trans e1⟩

/-- Under `envPartFail` the triple body makes no observable progress. -/
theorem threeWayBody_envPartFail (a b c : TransferRequest) (st : AllocState)
    (hfresh : MatchDbFresh st.db) :
    noAllocProgress st (threeWayBody envPartFail a b c st)
    ∧ MatchDbFresh (threeWayBody envPartFail a b c st).db := by
  unfold threeWayBody
  split
  · exact ⟨noAllocProgress_refl st, hfresh⟩
  · split
    · split
      · exact ⟨noAllocProgress_refl st, hfresh⟩
      · split
        · exact ⟨noAllocProgress_refl st, hfresh⟩
        · split
          · have hfacts := createThreeWayMatch_envPartFail st.db a b c
              (calculateThreeWayCompatibility a b c) hfresh
            rcases hc : createThreeWayMatch envPartFail st.db a b c
                (calculateThreeWayCompatibility a b c) with ⟨db1, mid⟩
            rw [hc] at hfacts
            cases mid with
            | some m => exact absurd hfacts.2.2.1 (by simp)
            | none =>
              simp only
              exact ⟨⟨hfacts.1, hfacts.2.1, rfl, rfl, rfl⟩, hfacts.2.2.2⟩
          · exact ⟨noAllocProgress_refl st, hfresh⟩
    · exact ⟨noAllocProgress_refl st, hfresh⟩

/-- Under `envPartFail` the innermost triple loop makes no progress. -/
theorem threeWayLoopK_envPartFail (a b : TransferRequest) :
    ∀ (rest : List TransferRequest) (st : AllocState), MatchDbFresh st.db →
      noAllocProgress st (threeWayLoopK envPartFail a b rest st)
      ∧ MatchDbFresh (threeWayLoopK envPartFail a b rest st).db := by
  intro rest
  induction rest with
  | nil => intro st h; exact ⟨noAllocProgress_refl st, h⟩
  | cons c rest ih =>
    intro st h
    unfold threeWayLoopK
    split
    · exact ih st h
    · obtain ⟨hb, hfb⟩ := threeWayBody_envPartFail a b c st h
      obtain ⟨hl, hfl⟩ := ih _ hfb
      exact ⟨noAllocProgress_trans hb hl, hfl⟩

/-- Under `envPartFail` the middle triple loop makes no progress. -/
theorem threeWayLoopJ_envPartFail (a : TransferRequest) :
    ∀ (rest : List TransferRequest) (st : AllocState), MatchDbFresh st.db →
      noAllocProgress st (threeWayLoopJ envPartFail a rest st)
      ∧ MatchDbFresh (threeWayLoopJ envPartFail a rest st).db := by
  intro rest
  induction rest with
  | nil => intro st h; exact ⟨noAllocProgress_refl st, h⟩
  | cons b rest ih =>
    intro st h
    unfold threeWayLoopJ
    split
    · exact ih st h
    · obtain ⟨hb, hfb⟩ := threeWayLoopK_envPartFail a b rest st h
      obtain ⟨hl, hfl⟩ := ih _ hfb
      exact ⟨noAllocProgress_trans hb hl, hfl⟩

/-- Under `envPartFail` the outer triple loop makes no progress. -/
theorem threeWayLoopI_envPartFail :
    ∀ (rest : List TransferRequest) (st : AllocState), MatchDbFresh st.db →
      noAllocProgress st (threeWayLoopI envPartFail rest st)
      ∧ MatchDbFresh (threeWayLoopI envPartFail rest st).db := by
  intro rest
  induction rest with
  | nil => intro st h; exact ⟨noAllocProgress_refl st, h⟩
  | cons a rest ih =>
    intro st h
    unfold threeWayLoopI
    split
    · exact ih st h
    · obtain ⟨hb, hfb⟩ := threeWayLoopJ_envPartFail a rest st h
      obtain ⟨hl, hfl⟩ := ih _ hfb
      exact ⟨noAllocProgress_trans hb hl, hfl⟩

/-- Under `envPartFail` the pairwise inner loop makes no progress (the
break branch is unreachable because creation always reports `none`). -/
theorem twoWayLoopJ_envPartFail (r1 : TransferRequest) :
    ∀ (rest : List TransferRequest) (st : AllocState), MatchDbFresh st.db →
      noAllocProgress st (twoWayLoopJ envPartFail r1 rest st)
      ∧ MatchDbFresh (twoWayLoopJ envPartFail r1 rest st).db := by
  intro rest
  induction rest with
  | nil => intro st h; exact ⟨noAllocProgress_refl st, h⟩
  | cons r2 rest ih =>
    intro st h
    unfold twoWayLoopJ
    split
    · exact ih st h
    · split
      · exact ih st h
      · split
        · have hfacts := createTwoWayMatch_envPartFail st.db r1 r2
            (calculateCompatibility r1 r2) h
          rcases hc : createTwoWayMatch envPartFail st.db r1 r2
              (calculateCompatibility r1 r2) with ⟨db1, mid⟩
          rw [hc] at hfacts
          cases mid with
          | some m => exact absurd hfacts.2.2.1 (by simp)
          | none =>
            simp only
            obtain ⟨hl, hfl⟩ := ih { st with db := db1 } hfacts.2.2.2
            have hmidst : noAllocProgress st { st with db := db1 } :=
              ⟨hfacts.1, hfacts.2.1, rfl, rfl, rfl⟩
            exact ⟨noAllocProgress_trans hmidst hl, hfl⟩
        · exact ih st h

/-- Under `envPartFail` the pairwise outer loop makes no progress. -/
theorem twoWayLoopI_envPartFail :
    ∀ (rest : List TransferRequest) (st : AllocState), MatchDbFresh st.db →
      noAllocProgress st (twoWayLoopI envPartFail rest st)
      ∧ MatchDbFresh (twoWayLoopI envPartFail rest st).db := by
  intro rest
  induction rest with
  | nil => intro st h; exact ⟨noAllocProgress_refl st, h⟩
  | cons r1 rest ih =>
    intro st h
    unfold twoWayLoopI
    split
    · exact ih st h
    · obtain ⟨hb, hfb⟩ := twoWayLoopJ_envPartFail r1 rest st h
      obtain ⟨hl, hfl⟩ := ih _ hfb
      exact ⟨noAllocProgress_trans hb hl, hfl⟩

/-- C6. When the participant insert fails after the match row
committed, both factories delete the match row again — a subsequent
read finds the match table exactly as before, no participant rows —
and report `none`; consequently a whole run in which every participant
insert fails creates nothing: `matchesCreated = 0`,
`requestsProcessed = 0`, no allocated groups, and unchanged tables. -/
theorem participant_insert_failure_rollback (db : MatchDb)
    (r1 r2 a b c : TransferRequest) (comp : CompatibilityScore) (score : Int)
    (pool : List TransferRequest) (hfresh : MatchDbFresh db) :
    ((createTwoWayMatch envPartFail db r1 r2 comp).1.transfer_matches = db.transfer_matches
      ∧ (createTwoWayMatch envPartFail db r1 r2 comp).1.participants = db.participants
      ∧ (createTwoWayMatch envPartFail db r1 r2 comp).2 = none)
    ∧ ((createThreeWayMatch envPartFail db a b c score).1.transfer_matches = db.transfer_matches
      ∧ (createThreeWayMatch envPartFail db a b c score).1.participants = db.participants
      ∧ (createThreeWayMatch envPartFail db a b c score).2 = none)
    ∧ ((runMatchingAlgorithm envPartFail db pool).1 = (0, 0)
      ∧ (runMatchingAlgorithm envPartFail db pool).2.db.transfer_matches = db.transfer_matches
      ∧ (runMatchingAlgorithm envPartFail db pool).2.db.participants = db.participants
      ∧ (runMatchingAlgorithm envPartFail db pool).2.groups = []) := by
  have h2 := createTwoWayMatch_envPartFail db r1 r2 comp hfresh
  have h3 := createThreeWayMatch_envPartFail db a b c score hfresh
  refine ⟨⟨h2.1, h2.2.1, h2.2.2.1⟩, ⟨h3.1, h3.2.1, h3.2.2.1⟩, ?_⟩
  unfold runMatchingAlgorithm
  split
  · exact ⟨rfl, rfl, rfl, rfl⟩
  · have hst0 : MatchDbFresh (({ db := db, processed := [], count := 0, groups := [] } :
      AllocState)).db := hfresh
    set st0 : AllocState := { db := db, processed := [], count := 0, groups := [] } with hst0def
    have hmid : noAllocProgress st0 (if 3 ≤ pool.length then
        findThreeWayMatches envPartFail pool st0 else st0)
      ∧ MatchDbFresh (if 3 ≤ pool.length then
        findThreeWayMatches envPartFail pool st0 else st0).db := by
      split
      · exact threeWayLoopI_envPartFail pool st0 hst0
      · exact ⟨noAllocProgress_refl st0, hst0⟩
    obtain ⟨hb, hfb⟩ := hmid
    obtain ⟨hl, hfl⟩ := twoWayLoopI_envPartFail pool _ hfb
    have htot := noAllocProgress_trans hb hl
    obtain ⟨hm, hp, hpr, hc, hg⟩ := htot
    refine ⟨?_, hm, hp, hg⟩
    simp only [hc, hpr]
    rfl

/-- C3 amended. The detector tests, for each index-ordered triple,
only the single orientation first→second→third: when that orientation
forms the cycle and every gate passes with score ≥ 40, the triple is
allocated as a `circular_three` group. (A triple whose only cycle is
the opposite orientation is not found — see the counterexample.) -/
theorem forward_cycle_triple_allocated (a b c : TransferRequest)
    (hidab : a.id ≠ b.id) (hidac : a.id ≠ c.id) (hidbc : b.id ≠ c.id)
    (huab : a.user_id ≠ b.user_id) (hubc : b.user_id ≠ c.user_id)
    (huac : a.user_id ≠ c.user_id)
    (hwab : wantsSchoolOf a b = true) (hwbc : wantsSchoolOf b c = true)
    (hwca : wantsSchoolOf c a = true)
    (hcatab : a.appointment_category_id = b.appointment_category_id)
    (hcatbc : b.appointment_category_id = c.appointment_category_id)
    (hmedab : a.medium_of_instruction = b.medium_of_instruction)
    (hmedbc : b.medium_of_instruction = c.medium_of_instruction)
    (hsab : hasCommonSubjects a b = true) (hsbc : hasCommonSubjects b c = true)
    (hsca : hasCommonSubjects c a = true)
    (hscore : 40 ≤ calculateThreeWayCompatibility a b c) :
    (runMatchingAlgorithm envAllOk emptyMatchDb [a, b, c]).1 = (1, 3)
    ∧ (runMatchingAlgorithm envAllOk emptyMatchDb [a, b, c]).2.groups = [[a, b, c]]
    ∧ (runMatchingAlgorithm envAllOk emptyMatchDb [a, b, c]).2.db.transfer_matches.map
        MatchRow.match_type = [.circular_three] := by
  refine ⟨?_, ?_, ?_⟩ <;>
    simp [runMatchingAlgorithm, findThreeWayMatches, threeWayLoopI, threeWayLoopJ,
      threeWayLoopK, threeWayBody, twoWayLoopI, twoWayLoopJ, createThreeWayMatch,
      envAllOk, emptyMatchDb, addId, hscore, hwab, hwbc, hwca, hsab, hsbc, hsca,
      hcatab, hcatbc, hmedab, hmedbc, huab, hubc, huac, hidab, hidac, hidbc,
      Ne.symm hidab, Ne.symm hidac, Ne.symm hidbc]

/-- Witness for `forward_cycle_triple_allocated`: the forward cycle
(A,B,C) of `overlapPool` alone. -/
theorem forward_cycle_triple_allocated_witness :
    (runMatchingAlgorithm envAllOk emptyMatchDb [reqA, reqB, reqC]).1 = (1, 3)
    ∧ (runMatchingAlgorithm envAllOk emptyMatchDb [reqA, reqB, reqC]).2.groups
        = [[reqA, reqB, reqC]] := by
  have h := forward_cycle_triple_allocated reqA reqB reqC (by decide) (by decide)
    (by decide) (by decide) (by decide) (by decide) (by decide) (by decide) (by decide)
    (by decide) (by decide) (by decide) (by decide) (by decide) (by decide) (by decide)
    (by decide)
  exact ⟨h.1, h.2.1⟩

/-- A rank found in the preference list implies preference membership. -/
theorem wants_of_findRank (x y : TransferRequest) (r : Nat)
    (h : findRank x.preferred_schools y.current_school_id = some r) :
    wantsSchoolOf x y = true := by
  unfold findRank at h
  unfold wantsSchoolOf
  cases hf : x.preferred_schools.find? (fun ps => ps.preferred_school_id == y.current_school_id) with
  | none => rw [hf] at h; simp at h
  | some p =>
    have hp := List.find?_some hf
    exact List.any_eq_true.mpr ⟨p, List.mem_of_find?_eq_some hf, hp⟩

/-- The subject component never exceeds 15: the shared-subject count is
at most the larger subject-set size. -/
theorem subjectComponent_le_15 (cnt m : Nat) (hc : cnt ≤ m) (hm : m ≠ 0) :
    natRoundDiv (15 * cnt) m ≤ 15 := by
  unfold natRoundDiv
  have h2m : 0 < 2 * m := by omega
  calc (2 * (15 * cnt) + m) / (2 * m)
      ≤ (2 * (15 * m) + m) / (2 * m) := Nat.div_le_div_right (by omega)
    _ = 15 := by
        rw [show 2 * (15 * m) + m = 2 * m * 15 + m by ring, Nat.mul_add_div h2m,
          Nat.div_eq_of_lt (by omega)]

/-- C9 amended. For a pool of exactly two requests with mutual rank-1
preferences, equal category and medium, both normal urgency, at least
one shared subject and the same (non-zero) district: mutual = 60,
geo = 20, urgency = 5, subjects ≥ 0 (it can round to 0 — see the
counterexample), total ≥ 85 ≥ the 50 gate, and the run creates exactly
one `two_way` match with `matchesCreated = 1, requestsProcessed = 2`. -/
theorem mutual_rank1_pair_scores_and_allocates (r1 r2 : TransferRequest)
    (hid : r1.id ≠ r2.id) (huser : r1.user_id ≠ r2.user_id)
    (hrank1 : findRank r2.preferred_schools r1.current_school_id = some 1)
    (hrank2 : findRank r1.preferred_schools r2.current_school_id = some 1)
    (hcat : r1.appointment_category_id = r2.appointment_category_id)
    (hmed : r1.medium_of_instruction = r2.medium_of_instruction)
    (hu1 : r1.urgency_level = .normal) (hu2 : r2.urgency_level = .normal)
    (hsub : hasCommonSubjects r1 r2 = true)
    (d : Nat) (hd : d ≠ 0)
    (hd1 : districtId r1 = some d) (hd2 : districtId r2 = some d) :
    (calculateCompatibility r1 r2).mutualSchools = 60
    ∧ (calculateCompatibility r1 r2).geographicCompatibility = 20
    ∧ 0 ≤ (calculateCompatibility r1 r2).subjects
    ∧ (calculateCompatibility r1 r2).urgency = 5
    ∧ 85 ≤ (calculateCompatibility r1 r2).total
    ∧ 50 ≤ (calculateCompatibility r1 r2).total
    ∧ (runMatchingAlgorithm envAllOk emptyMatchDb [r1, r2]).1 = (1, 2)
    ∧ (runMatchingAlgorithm envAllOk emptyMatchDb [r1, r2]).2.groups = [[r1, r2]]
    ∧ (runMatchingAlgorithm envAllOk emptyMatchDb [r1, r2]).2.db.transfer_matches.map
        MatchRow.match_type = [.two_way] := by
  have hw1 : wantsSchoolOf r2 r1 = true := wants_of_findRank r2 r1 1 hrank1
  have hw2 : wantsSchoolOf r1 r2 = true := wants_of_findRank r1 r2 1 hrank2
  have hlen : (r1.subjects.length == 0 || r2.subjects.length == 0) = false := by
    revert hsub
    unfold hasCommonSubjects
    cases h : (r1.subjects.length == 0 || r2.subjects.length == 0)
    · intro _; rfl
    · simp
  have hgeo : calculateGeographicCompatibility r1 r2 = 20 := by
    simp [calculateGeographicCompatibility, hd1, hd2, falsyOpt, hd]
  have hcc : calculateCompatibility r1 r2 =
      { total := min (60 + 20 + (natRoundDiv
            (15 * (r1.subjects.filter (fun s => r2.subjects.contains s)).length)
            (max r1.subjects.length r2.subjects.length) : Int) + 5) 100,
        mutualSchools := 60, geographicCompatibility := 20,
        subjects := (natRoundDiv
            (15 * (r1.subjects.filter (fun s => r2.subjects.contains s)).length)
            (max r1.subjects.length r2.subjects.length) : Int),
        urgency := 5 } := by
    simp only [calculateCompatibility, hw1, hw2, hrank1, hrank2, rankOr5, hu1, hu2,
      hlen, hgeo, Bool.and_self, if_true, Bool.false_eq_true, if_false]
    norm_num
  have hs0 : (0 : Int) ≤ (natRoundDiv
      (15 * (r1.subjects.filter (fun s => r2.subjects.contains s)).length)
      (max r1.subjects.length r2.subjects.length) : Int) := Int.natCast_nonneg _
  have htot85 : 85 ≤ (calculateCompatibility r1 r2).total := by
    rw [hcc]
    refine le_min (by omega) (by norm_num)
  have h50 : (50 : Int) ≤ (calculateCompatibility r1 r2).total :=
    le_trans (by norm_num) htot85
  refine ⟨by rw [hcc], by rw [hcc], by rw [hcc]; exact hs0, by rw [hcc], htot85,
    h50, ?_, ?_, ?_⟩ <;>
    simp [runMatchingAlgorithm, twoWayLoopI, twoWayLoopJ, createTwoWayMatch,
      envAllOk, emptyMatchDb, addId, h50, hcat, hmed, hsub,
      huser, hid, Ne.symm hid, Ne.symm huser]

/-- Witness for `mutual_rank1_pair_scores_and_allocates`: the pair
(pairR1, pairR2) in district 10 sharing subject 1. -/
theorem mutual_rank1_pair_scores_and_allocates_witness :
    (calculateCompatibility pairR1 pairR2).mutualSchools = 60
    ∧ 85 ≤ (calculateCompatibility pairR1 pairR2).total
    ∧ (runMatchingAlgorithm envAllOk emptyMatchDb [pairR1, pairR2]).1 = (1, 2) := by
  have h := mutual_rank1_pair_scores_and_allocates pairR1 pairR2 (by decide) (by decide)
    (by decide) (by decide) (by decide) (by decide) (by decide) (by decide) (by decide)
    10 (by decide) (by decide) (by decide)
  exact ⟨h.1, h.2.2.2.2.1, h.2.2.2.2.2.2.1⟩

/-- Witness for `participant_insert_failure_rollback`: a pair that
passes every gate, whose participant insert fails. -/
theorem participant_insert_failure_rollback_witness :
    (createTwoWayMatch envPartFail emptyMatchDb pairR1 pairR2
        (calculateCompatibility pairR1 pairR2)).1.transfer_matches
      = emptyMatchDb.transfer_matches
    ∧ (createTwoWayMatch envPartFail emptyMatchDb pairR1 pairR2
        (calculateCompatibility pairR1 pairR2)).2 = none
    ∧ (runMatchingAlgorithm envPartFail emptyMatchDb [pairR1, pairR2]).1 = (0, 0) := by
  have h := participant_insert_failure_rollback emptyMatchDb pairR1 pairR2 reqA reqB reqC
    (calculateCompatibility pairR1 pairR2) 50 [pairR1, pairR2]
    (by intro m hm; simp [emptyMatchDb] at hm)
  exact ⟨h.1.1, h.1.2.2, h.2.2.1⟩
